import Mathlib

/-!
Shallow embedding of `colorie.py`, a terminal text-styling utility, together
with theorems about its behaviour.

Python values are modelled as follows: `Optional[str]` becomes `Option String`,
dicts with string keys become association lists with a lookup function,
raised exceptions become `Except` errors, and the environment variable
`ANSI_COLORS_DISABLED` is passed explicitly as an `Option String` argument
(`none` = unset, `some v` = set to `v`, including the empty string).
-/

namespace Colorie

/-- `ANSII_ESCAPE = "\33[{codes}m"` with `.format(codes=...)` applied:
octal `\33` is the escape byte `0x1b`. -/
def ANSII_ESCAPE (codes : String) : String := "\x1b[" ++ codes ++ "m"

/-- `RESET = ANSII_ESCAPE.format(codes="0")`. -/
def RESET : String := ANSII_ESCAPE "0"

/-- `ATTRIBUTES = dict(zip(["bold", "dark", "", "underline", "blink", "", "reverse", "concealed"], range(1, 9)))`
followed by `del ATTRIBUTES[""]`: the two placeholder entries (codes 3 and 6)
are removed, leaving the six named attributes below. -/
def ATTRIBUTES : List (String × Nat) :=
  [("bold", 1), ("dark", 2), ("underline", 4), ("blink", 5), ("reverse", 7), ("concealed", 8)]

/-- `COLORS = dict(zip(["grey", "red", "green", "yellow", "blue", "magenta", "cyan", "white"], range(30, 38)))`. -/
def COLORS : List (String × Nat) :=
  [("grey", 30), ("red", 31), ("green", 32), ("yellow", 33),
   ("blue", 34), ("magenta", 35), ("cyan", 36), ("white", 37)]

/-- `HIGHLIGHTS = dict(zip([f"on_{color}" for color in COLORS], range(40, 48)))`:
each color name prefixed with `on_`, codes shifted by 10. -/
def HIGHLIGHTS : List (String × Nat) :=
  COLORS.map (fun p => ("on_" ++ p.1, p.2 + 10))

/-- Python `s.lower()`, modelled character-by-character (ASCII case mapping,
which covers every name in the code tables). -/
def pyLower (s : String) : String := String.mk (s.toList.map Char.toLower)

/-- Python dict lookup `d.get(key)` on a string-keyed dict, as association-list
lookup: `none` models `None`. -/
def dictGet (d : List (String × Nat)) (key : String) : Option Nat :=
  match d with
  | [] => none
  | (k, v) :: rest => if key = k then some v else dictGet rest key

/-- `d.get(key)` where `key` may itself be `None` (never a dict key here). -/
def pyGetOpt (d : List (String × Nat)) (key : Option String) : Option Nat :=
  key.bind (fun k => dictGet d k)

/-- The filter-and-stringify step of `";".join([str(code) for code in sequence if code])`:
a code survives the Python truthiness test `if code` exactly when it is an int
other than 0 (`None` and `0` are falsy). -/
def pyCodeStr : Option Nat → Option String
  | none => none
  | some n => if n = 0 then none else some (toString n)

/-- The loop of `validate_args`: walk the `to_validate` list of
`(arg_name, arg, dict_with_escape_codes)` triples and raise
`KeyError(f'Invalid {arg_name} argument: "{arg}"')` on the first `arg` whose
lowercase form is not a key of its dict. The error is modelled as the pair
`(arg_name, arg)` identifying the field and the invalid value. -/
def firstInvalid : List (String × String × List (String × Nat)) → Except (String × String) Unit
  | [] => .ok ()
  | (argName, arg, d) :: rest =>
    if (dictGet d (pyLower arg)).isSome then firstInvalid rest
    else .error (argName, arg)

/-- `validate_args(color, highlight, attrs)`: builds
`[("attrs", a, ATTRIBUTES) for a in attrs]`, appends `("highlight", highlight, HIGHLIGHTS)`
when highlight is not `None`, then `("color", color, COLORS)` when color is not
`None`, and checks them in that order. -/
def validate_args (color highlight : Option String) (attrs : List String) :
    Except (String × String) Unit :=
  firstInvalid
    ((attrs.map (fun a => ("attrs", a, ATTRIBUTES)))
      ++ (match highlight with | some h => [("highlight", h, HIGHLIGHTS)] | none => [])
      ++ (match color with | some c => [("color", c, COLORS)] | none => []))

/-- `colored(text, color=None, highlight=None, attrs=(), strict=False, reset=True)`.
The final parameter models `os.getenv("ANSI_COLORS_DISABLED")`. -/
def colored (text : String) (color highlight : Option String) (attrs : List String)
    (strict : Bool) (reset : Bool) (ansiColorsDisabled : Option String) :
    Except (String × String) String :=
  let color := color.map pyLower
  let highlight := highlight.map pyLower
  let attrs := attrs.map pyLower
  match (if strict then validate_args color highlight attrs else Except.ok ()) with
  | .error e => .error e
  | .ok _ =>
    match ansiColorsDisabled with
    | some _ => .ok text
    | none =>
      let sequence : List (Option Nat) :=
        pyGetOpt COLORS color :: pyGetOpt HIGHLIGHTS highlight
          :: attrs.map (fun a => dictGet ATTRIBUTES a)
      let formatted_sequence := String.intercalate ";" (sequence.filterMap pyCodeStr)
      .ok (ANSII_ESCAPE formatted_sequence ++ text ++ (if reset then RESET else ""))

/-- The `Color` class: `__slots__ = "color", "highlight", "attrs"`. -/
structure Color where
  color : Option String
  highlight : Option String
  attrs : List String
deriving DecidableEq

/-- The `ColoredString` class: `__slots__ = "original_str", "color"`. -/
structure ColoredString where
  original_str : String
  color : Color
deriving DecidableEq

/-- `Color.__init__(self, color=None, highlight=None, attrs=(), strict=True)`:
runs `validate_args` when strict, then stores the raw arguments. -/
def colorInit (color highlight : Option String) (attrs : List String) (strict : Bool) :
    Except (String × String) Color :=
  match (if strict then validate_args color highlight attrs else Except.ok ()) with
  | .error e => .error e
  | .ok _ => .ok { color := color, highlight := highlight, attrs := attrs }

/-- Python `x or y` on `Optional[str]` operands: `None` and the empty string
are falsy, any other string is truthy. -/
def pyOrStr (a b : Option String) : Option String :=
  match a with
  | some s => if s = "" then b else some s
  | none => b

/-- `tuple(set(*args))` where `args` is the concatenated attribute lists of
`Color.__add__`: the `*` unpacking passes each attribute as a separate
positional argument to `set(...)`, so zero arguments give the empty set, a
single string argument gives the set of its characters (iteration order is
unspecified in Python; the character-set content is modelled in
first-occurrence order), and two or more arguments raise
`TypeError: set expected at most 1 argument, got N`. -/
def pySetUnpack (args : List String) : Except String (List String) :=
  match args with
  | [] => .ok []
  | [s] => .ok ((s.toList.eraseDups).map (fun c => String.mk [c]))
  | args => .error ("TypeError: set expected at most 1 argument, got " ++ toString args.length)

/-- The `isinstance(other, Color)` branch of `Color.__add__`:
`Color(self.color or other.color, self.highlight or other.highlight, tuple(set(*self.attrs, *other.attrs)), False)`. -/
def colorAddColor (self other : Color) : Except String Color :=
  match pySetUnpack (self.attrs ++ other.attrs) with
  | .error e => .error e
  | .ok attrs =>
    .ok { color := pyOrStr self.color other.color,
          highlight := pyOrStr self.highlight other.highlight,
          attrs := attrs }

/-- An arbitrary Python operand as seen by the overloaded operators:
a `Color`, a plain `str`, a `ColoredString`, or a value of any other type,
identified by its type name (e.g. `int`, `NoneType`). -/
inductive PyValue where
  | colorV (c : Color)
  | strV (s : String)
  | coloredStrV (cs : ColoredString)
  | otherV (typeName : String)
deriving DecidableEq

/-- Possible results of `Color.__add__`: a `Color`, a `ColoredString`, or
Python's implicit `None` return when every `isinstance` branch fails. -/
inductive AddResult where
  | colorR (c : Color)
  | coloredStrR (cs : ColoredString)
  | noneR
deriving DecidableEq

/-- `Color.__add__(self, other)`: dispatches on the operand type; the
`if/elif/elif` chain has no `else`, so an unrecognized operand falls through
and the method returns `None`. -/
def colorAdd (self : Color) (other : PyValue) : Except String AddResult :=
  match other with
  | .colorV o => (colorAddColor self o).map .colorR
  | .strV s => .ok (.coloredStrR ⟨s, self⟩)
  | .coloredStrV cs =>
    (colorAddColor self cs.color).map (fun c => .coloredStrR ⟨cs.original_str, c⟩)
  | .otherV _ => .ok .noneR

/-- `ColoredString.__add__(self, other)`: a `Color` operand delegates to
`other + self` (which rebuilds the string with the combined color), a `str`
operand appends to the payload, a `ColoredString` operand concatenates
payloads and combines colors, and anything else raises
`NotImplementedError(f'Cannot add "ColoredString" to "{type(other)}"')`,
modelled with the operand's type name in the message. -/
def coloredStringAdd (self : ColoredString) (other : PyValue) :
    Except String ColoredString :=
  match other with
  | .colorV c => (colorAddColor c self.color).map (fun cc => ⟨self.original_str, cc⟩)
  | .strV s => .ok ⟨self.original_str ++ s, self.color⟩
  | .coloredStrV o =>
    (colorAddColor self.color o.color).map
      (fun cc => ⟨self.original_str ++ o.original_str, cc⟩)
  | .otherV t => .error ("NotImplementedError: Cannot add \"ColoredString\" to \"" ++ t ++ "\"")

/-- `Color.__eq__(self, other)` restricted to a `Color` operand:
`self.color == other.color and self.highlight == other.highlight and self.attrs == other.attrs`,
where `attrs` are compared as sequences. -/
def colorEqColor (self other : Color) : Bool :=
  self.color == other.color && self.highlight == other.highlight && self.attrs == other.attrs

/-- `Color.__eq__(self, other)` for an arbitrary operand: the body
unconditionally reads `other.color`, `other.highlight` and `other.attrs`, so
any operand that is not a `Color` makes the comparison raise an
`AttributeError` (for a `ColoredString` operand the error surfaces from the
nested field comparison) instead of returning `False`. -/
def colorEq (self : Color) (other : PyValue) : Except String Bool :=
  match other with
  | .colorV o => .ok (colorEqColor self o)
  | .strV _ => .error "AttributeError"
  | .coloredStrV _ => .error "AttributeError"
  | .otherV _ => .error "AttributeError"

/-- The numeric table code for a (case-insensitively) valid name, used to
state what the formatter is expected to emit. -/
def tableCode (d : List (String × Nat)) (name : String) : Nat :=
  (dictGet d (pyLower name)).getD 0

/-- A name is valid for a table when its lowercase form is a key. -/
def nameValid (d : List (String × Nat)) (name : String) : Bool :=
  (dictGet d (pyLower name)).isSome

/-- An optional name is valid when absent or valid. -/
def optNameValid (d : List (String × Nat)) : Option String → Bool
  | none => true
  | some s => nameValid d s

/-- The code string expected for an optional name: nothing when absent, the
table code when present. -/
def optCode (d : List (String × Nat)) : Option String → List String
  | some s => [toString (tableCode d s)]
  | none => []

/-- The code strings the formatter is expected to emit for given inputs, in
color-then-highlight-then-attributes order, one entry per attribute
occurrence. -/
def expectedCodes (color highlight : Option String) (attrs : List String) : List String :=
  optCode COLORS color ++ optCode HIGHLIGHTS highlight
    ++ attrs.map (fun a => toString (tableCode ATTRIBUTES a))

/-! ### Helper lemmas about the code tables and the formatter -/

theorem ATTRIBUTES_pos : ∀ p ∈ ATTRIBUTES, 0 < p.2 := by decide

theorem COLORS_pos : ∀ p ∈ COLORS, 0 < p.2 := by decide

theorem HIGHLIGHTS_pos : ∀ p ∈ HIGHLIGHTS, 0 < p.2 := by decide

theorem dictGet_pos (d : List (String × Nat)) (hd : ∀ p ∈ d, 0 < p.2) :
    ∀ k v, dictGet d k = some v → 0 < v := by
  induction d with
  | nil => intro k v h; simp [dictGet] at h
  | cons p rest ih =>
    intro k v h
    obtain ⟨a, b⟩ := p
    unfold dictGet at h
    split at h
    · injection h with h2
      exact h2 ▸ hd (a, b) (List.mem_cons_self _ _)
    · exact ih (fun q hq => hd q (List.mem_cons_of_mem _ hq)) k v h

theorem pyCodeStr_dictGet_of_valid (d : List (String × Nat)) (hd : ∀ p ∈ d, 0 < p.2)
    (s : String) (h : nameValid d s = true) :
    pyCodeStr (dictGet d (pyLower s)) = some (toString (tableCode d s)) := by
  unfold nameValid at h
  obtain ⟨v, hv⟩ := Option.isSome_iff_exists.mp h
  have hvne : v ≠ 0 := Nat.pos_iff_ne_zero.mp (dictGet_pos d hd _ _ hv)
  simp [pyCodeStr, hv, tableCode, hvne]

theorem filterMap_attr_codes (attrs : List String)
    (ha : ∀ a ∈ attrs, nameValid ATTRIBUTES a = true) :
    ((attrs.map pyLower).map (fun a => dictGet ATTRIBUTES a)).filterMap pyCodeStr
      = attrs.map (fun a => toString (tableCode ATTRIBUTES a)) := by
  induction attrs with
  | nil => rfl
  | cons a rest ih =>
    simp only [List.map_cons]
    rw [List.filterMap_cons_some
      (pyCodeStr_dictGet_of_valid ATTRIBUTES ATTRIBUTES_pos a (ha a (List.mem_cons_self _ _)))]
    rw [ih (fun x hx => ha x (List.mem_cons_of_mem _ hx))]

theorem filterMap_opt_cons (d : List (String × Nat)) (hd : ∀ p ∈ d, 0 < p.2)
    (o : Option String) (ho : optNameValid d o = true) (l : List (Option Nat)) :
    (pyGetOpt d (o.map pyLower) :: l).filterMap pyCodeStr
      = optCode d o ++ l.filterMap pyCodeStr := by
  cases o with
  | none =>
    rw [List.filterMap_cons_none (by rfl)]
    rfl
  | some s =>
    rw [show pyGetOpt d ((some s).map pyLower) = dictGet d (pyLower s) from rfl]
    rw [List.filterMap_cons_some (pyCodeStr_dictGet_of_valid d hd s ho)]
    rfl

/-- Full evaluation of `colored` on (case-insensitively) valid inputs with the
disable variable unset and `strict=False`: the emitted code strings are the
table codes in color-then-highlight-then-attributes order. -/
theorem colored_eval (text : String) (color highlight : Option String) (attrs : List String)
    (reset : Bool)
    (hc : optNameValid COLORS color = true) (hh : optNameValid HIGHLIGHTS highlight = true)
    (ha : ∀ a ∈ attrs, nameValid ATTRIBUTES a = true) :
    colored text color highlight attrs false reset none =
      .ok (ANSII_ESCAPE (String.intercalate ";" (expectedCodes color highlight attrs))
        ++ text ++ (if reset then RESET else "")) := by
  have key : colored text color highlight attrs false reset none =
      .ok (ANSII_ESCAPE (String.intercalate ";"
          ((pyGetOpt COLORS (color.map pyLower) :: pyGetOpt HIGHLIGHTS (highlight.map pyLower)
            :: (attrs.map pyLower).map (fun a => dictGet ATTRIBUTES a)).filterMap pyCodeStr))
        ++ text ++ (if reset then RESET else "")) := rfl
  rw [key, filterMap_opt_cons COLORS COLORS_pos color hc,
    filterMap_opt_cons HIGHLIGHTS HIGHLIGHTS_pos highlight hh,
    filterMap_attr_codes attrs ha]
  simp [expectedCodes]

theorem str_append_assoc (a b c : String) : (a ++ b) ++ c = a ++ (b ++ c) :=
  congrArg String.mk (List.append_assoc a.data b.data c.data)

theorem firstInvalid_append_ok (l1 l2 : List (String × String × List (String × Nat)))
    (h1 : ∀ x ∈ l1, (dictGet x.2.2 (pyLower x.2.1)).isSome = true) :
    firstInvalid (l1 ++ l2) = firstInvalid l2 := by
  induction l1 with
  | nil => rfl
  | cons x rest ih =>
    obtain ⟨n, a, d⟩ := x
    have step : firstInvalid ((n, a, d) :: (rest ++ l2)) =
        if (dictGet d (pyLower a)).isSome = true then firstInvalid (rest ++ l2)
        else Except.error (n, a) := rfl
    rw [List.cons_append, step, if_pos (h1 (n, a, d) (List.mem_cons_self _ _))]
    exact ih (fun y hy => h1 y (List.mem_cons_of_mem _ hy))

theorem firstInvalid_cons_invalid (n a : String) (d : List (String × Nat))
    (rest : List (String × String × List (String × Nat)))
    (h : (dictGet d (pyLower a)).isSome = false) :
    firstInvalid ((n, a, d) :: rest) = .error (n, a) := by
  unfold firstInvalid
  rw [if_neg (by simp [h])]

theorem firstInvalid_cons_valid (n a : String) (d : List (String × Nat))
    (rest : List (String × String × List (String × Nat)))
    (h : (dictGet d (pyLower a)).isSome = true) :
    firstInvalid ((n, a, d) :: rest) = firstInvalid rest := by
  have step : firstInvalid ((n, a, d) :: rest) =
      if (dictGet d (pyLower a)).isSome = true then firstInvalid rest
      else Except.error (n, a) := rfl
  rw [step, if_pos h]

/-! ### Claim theorems -/

/-- C1 (code bug): the spec says combining two Colors takes the set union of
their attributes, but `Color.__add__` builds `tuple(set(*self.attrs, *other.attrs))`,
whose `*` unpacking passes each attribute as a separate positional argument to
`set(...)`; with one `"bold"` and one `"underline"` attribute the call raises a
`TypeError`, so the promised union is never computed. -/
theorem colorAddColor_bold_underline_raises :
    colorAddColor ⟨none, none, ["bold"]⟩ ⟨none, none, ["underline"]⟩ =
      .error "TypeError: set expected at most 1 argument, got 2" := rfl

/-- C2: for valid inputs with the disable variable unset and `reset=true`,
`colored` returns prefix + text + reset where the semicolon-joined codes are
exactly the table codes in color-then-highlight-then-attributes order; the
result starts with `ESC[` and ends with `ESC[0m`. -/
theorem colored_render_valid (text : String) (color highlight : Option String)
    (attrs : List String)
    (hc : optNameValid COLORS color = true) (hh : optNameValid HIGHLIGHTS highlight = true)
    (ha : ∀ a ∈ attrs, nameValid ATTRIBUTES a = true) :
    colored text color highlight attrs false true none =
      .ok ("\x1b[" ++ String.intercalate ";" (expectedCodes color highlight attrs)
        ++ ("m" ++ text ++ "\x1b[0m"))
    ∧ (∃ rest, "\x1b[" ++ String.intercalate ";" (expectedCodes color highlight attrs)
        ++ ("m" ++ text ++ "\x1b[0m") = "\x1b[" ++ rest)
    ∧ (∃ front, "\x1b[" ++ String.intercalate ";" (expectedCodes color highlight attrs)
        ++ ("m" ++ text ++ "\x1b[0m") = front ++ "\x1b[0m") := by
  refine ⟨?_, ?_, ?_⟩
  · rw [colored_eval text color highlight attrs true hc hh ha]
    congr 1
    simp [ANSII_ESCAPE, RESET, str_append_assoc]
  · exact ⟨String.intercalate ";" (expectedCodes color highlight attrs)
      ++ ("m" ++ text ++ "\x1b[0m"), by simp [str_append_assoc]⟩
  · exact ⟨"\x1b[" ++ String.intercalate ";" (expectedCodes color highlight attrs)
      ++ ("m" ++ text), by simp [str_append_assoc]⟩

theorem colored_render_valid_witness :
    colored "Hi" (some "green") none ["bold", "underline"] false true none =
      .ok "\x1b[32;1;4mHi\x1b[0m" := by
  have h := (colored_render_valid "Hi" (some "green") none ["bold", "underline"]
    (by decide) (by decide) (by decide)).1
  exact h.trans (by rfl)

/-- C3 counterexample: `colored("Hi", "bogus", strict=False)` does not return
the claimed `"\x1b[0mHi\x1b[0m"`. -/
theorem colored_bogus_ne_claimed :
    colored "Hi" (some "bogus") none [] false true none ≠ Except.ok "\x1b[0mHi\x1b[0m" := by
  intro hcontra
  have h : colored "Hi" (some "bogus") none [] false true none =
      Except.ok "\x1b[mHi\x1b[0m" := rfl
  rw [h] at hcontra
  injection hcontra with h2
  exact absurd h2 (by decide)

/-- C3 amended: the unknown color is dropped and the empty code list renders as
an escape sequence with an empty code parameter: the result is
`"\x1b[mHi\x1b[0m"` (no `0` before the first `m`). -/
theorem colored_bogus_empty_codes :
    colored "Hi" (some "bogus") none [] false true none = Except.ok "\x1b[mHi\x1b[0m" := rfl

/-- C4: when `ANSI_COLORS_DISABLED` is present with any value (the empty string
included), `colored` with default `strict=False` returns the text unchanged for
every text and arbitrary valid or invalid styling arguments; when the variable
is absent, the styled wrapping is produced. -/
theorem colored_disable_switch :
    (∀ (text : String) (color highlight : Option String) (attrs : List String)
        (reset : Bool) (v : String),
        colored text color highlight attrs false reset (some v) = .ok text)
    ∧ (∀ (text : String) (color highlight : Option String) (attrs : List String)
        (reset : Bool),
        colored text color highlight attrs false reset none =
          .ok (ANSII_ESCAPE (String.intercalate ";"
              ((pyGetOpt COLORS (color.map pyLower) :: pyGetOpt HIGHLIGHTS (highlight.map pyLower)
                :: (attrs.map pyLower).map (fun a => dictGet ATTRIBUTES a)).filterMap pyCodeStr))
            ++ text ++ (if reset then RESET else ""))) :=
  ⟨fun _ _ _ _ _ _ => rfl, fun _ _ _ _ _ => rfl⟩

theorem colored_disable_switch_witness :
    colored "Hi" (some "bogus") (some "on_bogus") ["nope"] false true (some "") = .ok "Hi" :=
  colored_disable_switch.1 "Hi" (some "bogus") (some "on_bogus") ["nope"] true ""

/-- C5 counterexample: `Color.__add__` applied to an operand of unrecognized
kind (an `int`) does not raise an unsupported-combination error: the
`isinstance` chain has no `else` branch, so the method returns Python `None`. -/
theorem colorAdd_other_no_error :
    colorAdd ⟨some "red", none, []⟩ (.otherV "int") = .ok .noneR := rfl

/-- C5 amended: only `ColoredString.__add__` fails with the
unsupported-combination error naming the offending type; `Color.__add__`
silently returns `None` for an operand of unrecognized kind. -/
theorem add_unrecognized_operand :
    (∀ (cs : ColoredString) (t : String),
        coloredStringAdd cs (.otherV t) =
          .error ("NotImplementedError: Cannot add \"ColoredString\" to \"" ++ t ++ "\""))
    ∧ (∀ (c : Color) (t : String), colorAdd c (.otherV t) = .ok .noneR) :=
  ⟨fun _ _ => rfl, fun _ _ => rfl⟩

theorem add_unrecognized_operand_witness :
    coloredStringAdd ⟨"x", ⟨none, none, []⟩⟩ (.otherV "int") =
      .error ("NotImplementedError: Cannot add \"ColoredString\" to \"" ++ "int" ++ "\"") :=
  add_unrecognized_operand.1 ⟨"x", ⟨none, none, []⟩⟩ "int"

/-- C6 counterexample: two Colors with equal color and highlight whose
attribute lists are permutations of each other (same attribute names, different
order) compare unequal, because `Color.__eq__` compares `attrs` as sequences. -/
theorem colorEqColor_order_counterexample :
    (Color.mk (some "red") none ["bold", "underline"]).color
        = (Color.mk (some "red") none ["underline", "bold"]).color
    ∧ (Color.mk (some "red") none ["bold", "underline"]).highlight
        = (Color.mk (some "red") none ["underline", "bold"]).highlight
    ∧ (Color.mk (some "red") none ["bold", "underline"]).attrs.Perm
        (Color.mk (some "red") none ["underline", "bold"]).attrs
    ∧ colorEqColor (Color.mk (some "red") none ["bold", "underline"])
        (Color.mk (some "red") none ["underline", "bold"]) = false :=
  ⟨rfl, rfl, List.Perm.swap "underline" "bold" [], by rfl⟩

/-- C6 amended: two Colors are equal iff their colors, highlights and attribute
sequences are all equal, where the attribute comparison is order-sensitive
sequence equality, not order-independent collection equality. -/
theorem colorEqColor_iff (a b : Color) :
    colorEqColor a b = true ↔
      a.color = b.color ∧ a.highlight = b.highlight ∧ a.attrs = b.attrs := by
  simp [colorEqColor, and_assoc]

theorem colorEqColor_iff_witness :
    colorEqColor ⟨some "red", some "on_blue", ["bold"]⟩
      ⟨some "red", some "on_blue", ["bold"]⟩ = true :=
  (colorEqColor_iff _ _).mpr ⟨rfl, rfl, rfl⟩

/-- C7: strict validation fails identifying the field name and the invalid
value, on the first invalid value in attributes-then-highlight-then-color
order; constructing a `Color` from an unknown color name fails when
`strict=true`, succeeds storing the raw fields when `strict=false`, and
rendering simply omits the invalid field's code (the output equals the output
with that field absent). -/
theorem validate_first_invalid :
    (∀ (c : String) (h : Option String) (attrs : List String),
        (∀ a ∈ attrs, nameValid ATTRIBUTES a = true) →
        optNameValid HIGHLIGHTS h = true →
        nameValid COLORS c = false →
          validate_args (some c) h attrs = .error ("color", c)
          ∧ colorInit (some c) h attrs true = .error ("color", c)
          ∧ colorInit (some c) h attrs false = .ok ⟨some c, h, attrs⟩)
    ∧ (∀ (c h : Option String) (pre : List String) (a : String) (post : List String),
        (∀ x ∈ pre, nameValid ATTRIBUTES x = true) →
        nameValid ATTRIBUTES a = false →
          validate_args c h (pre ++ a :: post) = .error ("attrs", a))
    ∧ (∀ (c : Option String) (hl : String) (attrs : List String),
        (∀ x ∈ attrs, nameValid ATTRIBUTES x = true) →
        nameValid HIGHLIGHTS hl = false →
          validate_args c (some hl) attrs = .error ("highlight", hl))
    ∧ (∀ (text c : String) (h : Option String) (attrs : List String),
        nameValid COLORS c = false →
          colored text (some c) h attrs false true none
            = colored text none h attrs false true none) := by
  have attrsOk : ∀ (attrs : List String), (∀ a ∈ attrs, nameValid ATTRIBUTES a = true) →
      ∀ x ∈ attrs.map (fun a => (("attrs" : String), a, ATTRIBUTES)),
        (dictGet x.2.2 (pyLower x.2.1)).isSome = true := by
    intro attrs ha x hx
    obtain ⟨a, hain, rfl⟩ := List.mem_map.mp hx
    exact ha a hain
  refine ⟨?_, ?_, ?_, ?_⟩
  · intro c h attrs ha hh hc
    have hval : validate_args (some c) h attrs = .error ("color", c) := by
      cases h with
      | none =>
        unfold validate_args
        rw [List.append_assoc, firstInvalid_append_ok _ _ (attrsOk attrs ha)]
        show firstInvalid [(("color" : String), c, COLORS)] = Except.error ("color", c)
        exact firstInvalid_cons_invalid "color" c COLORS [] hc
      | some hl =>
        unfold validate_args
        rw [List.append_assoc, firstInvalid_append_ok _ _ (attrsOk attrs ha)]
        show firstInvalid [("highlight", hl, HIGHLIGHTS), (("color" : String), c, COLORS)]
          = Except.error ("color", c)
        rw [firstInvalid_cons_valid "highlight" hl HIGHLIGHTS _
          (hh : nameValid HIGHLIGHTS hl = true)]
        exact firstInvalid_cons_invalid "color" c COLORS [] hc
    refine ⟨hval, ?_, rfl⟩
    show (match validate_args (some c) h attrs with
      | .error e => Except.error e
      | .ok _ => Except.ok (Color.mk (some c) h attrs)) = _
    rw [hval]
  · intro c h pre a post hpre hainv
    unfold validate_args
    rw [List.map_append, List.map_cons, List.append_assoc, List.append_assoc,
      firstInvalid_append_ok _ _ (attrsOk pre hpre)]
    exact firstInvalid_cons_invalid "attrs" a ATTRIBUTES _ hainv
  · intro c hl attrs ha hinv
    unfold validate_args
    rw [List.append_assoc, firstInvalid_append_ok _ _ (attrsOk attrs ha)]
    exact firstInvalid_cons_invalid "highlight" hl HIGHLIGHTS _ hinv
  · intro text c h attrs hc
    have hnone : dictGet COLORS (pyLower c) = none := by
      unfold nameValid at hc
      cases hx : dictGet COLORS (pyLower c) with
      | none => rfl
      | some v => rw [hx] at hc; simp at hc
    calc colored text (some c) h attrs false true none
        = .ok (ANSII_ESCAPE (String.intercalate ";"
            ((dictGet COLORS (pyLower c) :: pyGetOpt HIGHLIGHTS (h.map pyLower)
              :: (attrs.map pyLower).map (fun a => dictGet ATTRIBUTES a)).filterMap pyCodeStr))
          ++ text ++ RESET) := rfl
      _ = .ok (ANSII_ESCAPE (String.intercalate ";"
            (((none : Option Nat) :: pyGetOpt HIGHLIGHTS (h.map pyLower)
              :: (attrs.map pyLower).map (fun a => dictGet ATTRIBUTES a)).filterMap pyCodeStr))
          ++ text ++ RESET) := by rw [hnone]
      _ = colored text none h attrs false true none := rfl

theorem validate_first_invalid_witness :
    validate_args (some "bogus") none [] = .error ("color", "bogus")
    ∧ colorInit (some "bogus") none [] true = .error ("color", "bogus")
    ∧ colorInit (some "bogus") none [] false = .ok ⟨some "bogus", none, []⟩
    ∧ validate_args (some "bogus") (some "on_bogus") (["bold"] ++ "badattr" :: []) =
        .error ("attrs", "badattr")
    ∧ validate_args (some "bogus") (some "on_bogus") ["bold"] = .error ("highlight", "on_bogus")
    ∧ colored "Hi" (some "bogus") none [] false true none
        = colored "Hi" none none [] false true none := by
  obtain ⟨h1, h2, h3⟩ := validate_first_invalid.1 "bogus" none [] (by decide) (by decide) (by decide)
  refine ⟨h1, h2, h3, ?_, ?_, ?_⟩
  · exact validate_first_invalid.2.1 (some "bogus") (some "on_bogus") ["bold"] "badattr" []
      (by decide) (by decide)
  · exact validate_first_invalid.2.2.1 (some "bogus") "on_bogus" ["bold"] (by decide) (by decide)
  · exact validate_first_invalid.2.2.2 "Hi" "bogus" none [] (by decide)

/-- C8: whenever combining two Colors yields a result, the scalar fields follow
a left-precedence merge: the result's color is the left operand's when present,
otherwise the right operand's, and likewise for highlight. The hypotheses
reflect the data-model invariant that a present field is a table name (in
particular nonempty), which is what "present" tests in the code's
`self.color or other.color`. -/
theorem colorAddColor_left_precedence (a b r : Color)
    (hca : a.color ≠ some "") (hha : a.highlight ≠ some "")
    (h : colorAddColor a b = .ok r) :
    r.color = (if a.color.isSome then a.color else b.color)
    ∧ r.highlight = (if a.highlight.isSome then a.highlight else b.highlight) := by
  unfold colorAddColor at h
  cases hsp : pySetUnpack (a.attrs ++ b.attrs) with
  | error e => rw [hsp] at h; cases h
  | ok l =>
    rw [hsp] at h
    injection h with h2
    subst h2
    constructor
    · show pyOrStr a.color b.color = _
      cases hac : a.color with
      | none => rfl
      | some s =>
        have hs : s ≠ "" := fun he => hca (by rw [hac, he])
        simp [pyOrStr, hs]
    · show pyOrStr a.highlight b.highlight = _
      cases hah : a.highlight with
      | none => rfl
      | some s =>
        have hs : s ≠ "" := fun he => hha (by rw [hah, he])
        simp [pyOrStr, hs]

theorem colorAddColor_left_precedence_witness :
    ((Color.mk (some "red") none []).color =
        (if (Color.mk (some "red") none []).color.isSome then (Color.mk (some "red") none []).color
         else (Color.mk (some "blue") none []).color)
      ∧ (Color.mk (some "red") none []).highlight =
        (if (Color.mk (some "red") none []).highlight.isSome
         then (Color.mk (some "red") none []).highlight
         else (Color.mk (some "blue") none []).highlight))
    ∧ ((Color.mk (some "blue") none []).color =
        (if (Color.mk (some "blue") none []).color.isSome then (Color.mk (some "blue") none []).color
         else (Color.mk (some "red") none []).color)
      ∧ (Color.mk (some "blue") none []).highlight =
        (if (Color.mk (some "blue") none []).highlight.isSome
         then (Color.mk (some "blue") none []).highlight
         else (Color.mk (some "red") none []).highlight)) :=
  ⟨colorAddColor_left_precedence ⟨some "red", none, []⟩ ⟨some "blue", none, []⟩
      ⟨some "red", none, []⟩ (by decide) (by decide) rfl,
   colorAddColor_left_precedence ⟨some "blue", none, []⟩ ⟨some "red", none, []⟩
      ⟨some "blue", none, []⟩ (by decide) (by decide) rfl⟩

/-- C9: comparing a Color for equality against any operand that is not a Color
does not return `false`: the implementation unconditionally reads the fields
off the other operand, so the comparison raises an `AttributeError`. -/
theorem colorEq_non_color_raises (c : Color) (v : PyValue)
    (hv : ∀ o : Color, v ≠ .colorV o) :
    colorEq c v = .error "AttributeError" := by
  cases v with
  | colorV o => exact absurd rfl (hv o)
  | strV s => rfl
  | coloredStrV cs => rfl
  | otherV t => rfl

theorem colorEq_non_color_raises_witness :
    colorEq ⟨some "red", none, []⟩ (.strV "red") = .error "AttributeError" :=
  colorEq_non_color_raises ⟨some "red", none, []⟩ (.strV "red") (fun _ h => nomatch h)

/-- C10: the formatter does not deduplicate attribute names: every occurrence
in the supplied list contributes its numeric code, in the order supplied. -/
theorem colored_attr_duplicates_kept (text : String) (attrs : List String)
    (ha : ∀ a ∈ attrs, nameValid ATTRIBUTES a = true) :
    colored text none none attrs false true none =
      .ok (ANSII_ESCAPE (String.intercalate ";"
          (attrs.map (fun a => toString (tableCode ATTRIBUTES a)))) ++ text ++ RESET) := by
  have h := colored_eval text none none attrs true (by rfl) (by rfl) ha
  simpa [expectedCodes, optCode] using h

theorem colored_attr_duplicates_kept_witness :
    colored "x" none none ["bold", "bold"] false true none = .ok "\x1b[1;1mx\x1b[0m" := by
  have h := colored_attr_duplicates_kept "x" ["bold", "bold"] (by decide)
  exact h.trans (by rfl)

end Colorie
